import Mathlib

/-!
Shallow embedding of the VideoLab server (`server.js`).

The embedding covers: command-line/environment port resolution (`getPort`),
the startup port-range check, the static format registry (`FORMATS`), and the
two transcoding endpoints `POST /api/convert` and `POST /api/clip`.  Each
endpoint handler is modelled as a pure function from the request data, a
timestamp (`Date.now()`), and a world description (child-process outcome,
stream outcome) to the trace of observable events it performs: file deletions
(`fs.unlinkSync`), console logging, process spawns (`spawn('ffmpeg', args)`),
JSON error responses, and file downloads (`res.download`).

JavaScript numbers are modelled as follows: `parseInt` results are
`Option Int` (with `none` for `NaN`), `parseFloat` results are `Option ℚ`
(with `none` for `NaN`).  Rationals stand in for IEEE doubles; every branch
condition in the source compares values that are exact small decimals, where
the two orderings agree.
-/

namespace VideoLab

/-- ECMAScript whitespace accepted by `parseInt` before the number
(space, tab, LF, VT, FF, CR; the exotic Unicode spaces are omitted as they
cannot reach the server through `argv`/`env` in practice). -/
def isJsSpace (c : Char) : Bool :=
  c = ' ' || c = '\t' || c = '\n' || c = '\r' || c.toNat = 11 || c.toNat = 12

/-- Numeric value of a list of decimal digit characters. -/
def decNat (l : List Char) : Nat :=
  l.foldl (fun a c => 10 * a + (c.toNat - 48)) 0

/-- Hex-digit test, as used by `parseInt` after a `0x` prefix. -/
def isHexDigitB (c : Char) : Bool :=
  c.isDigit || ('a' ≤ c && c ≤ 'f') || ('A' ≤ c && c ≤ 'F')

/-- Numeric value of a list of hex digit characters. -/
def hexNat (l : List Char) : Nat :=
  l.foldl
    (fun a c =>
      16 * a +
        (if c.isDigit then c.toNat - 48
         else if 'a' ≤ c && c ≤ 'f' then c.toNat - 87
         else c.toNat - 55))
    0

/-- Magnitude part of `parseInt(s)` (radix unspecified): an optional `0x`/`0X`
prefix selects hexadecimal, otherwise the longest leading run of decimal
digits is taken; no digits at all yields `NaN` (`none`). -/
def jsParseIntCore (l : List Char) : Option Nat :=
  match l with
  | '0' :: 'x' :: rest =>
    let ds := rest.takeWhile isHexDigitB
    if ds.isEmpty then none else some (hexNat ds)
  | '0' :: 'X' :: rest =>
    let ds := rest.takeWhile isHexDigitB
    if ds.isEmpty then none else some (hexNat ds)
  | _ =>
    let ds := l.takeWhile Char.isDigit
    if ds.isEmpty then none else some (decNat ds)

/-- ECMAScript `parseInt(s)` with the radix argument omitted:
skip leading whitespace, read an optional sign, then `jsParseIntCore`.
`none` models `NaN`. -/
def jsParseInt (s : String) : Option Int :=
  let l := s.data.dropWhile isJsSpace
  match l with
  | '-' :: rest => (jsParseIntCore rest).map (fun n => -(n : Int))
  | '+' :: rest => (jsParseIntCore rest).map (fun n => (n : Int))
  | _ => (jsParseIntCore l).map (fun n => (n : Int))

/-- The test `/^\d+$/.test(arg)`: nonempty and all ASCII decimal digits. -/
def isAllDigits (s : String) : Bool :=
  !s.data.isEmpty && s.data.all Char.isDigit

/-- `arg.split('=')[1]`: the text between the first and second `=` of the
argument.  When the argument holds no `=` the JavaScript expression is
`undefined` and `parseInt(undefined)` is `NaN`; returning `""` gives the
same `NaN` through `jsParseInt`, and the call sites all contain a `=`. -/
def splitEqSecond (s : String) : String :=
  match s.data.dropWhile (fun c => !(c = '=')) with
  | '=' :: rest => String.mk (rest.takeWhile (fun c => !(c = '=')))
  | _ => ""

/-- `pre` is a leading segment of `l` (used for `arg.startsWith('--port=')`). -/
def leadsWith : List Char → List Char → Bool
  | [], _ => true
  | _ :: _, [] => false
  | a :: as, b :: bs => a = b && leadsWith as bs

/-- The argument-scanning loop of `getPort` (`server.js` lines 16–33).
Returns `some r` when the loop returns the port `r` (itself `none` for a
`NaN` produced by `parseInt` on a malformed `--port=` value), and `none`
when the loop falls through to the environment fallback.
A `-p`/`--port` whose following argument is not all digits does not return;
the loop simply advances by one, exactly as in the source. -/
def getPortLoop : List String → Option (Option Int)
  | [] => none
  | arg :: rest =>
    if isAllDigits arg then some (some (decNat arg.data))
    else if leadsWith "--port=".data arg.data then some (jsParseInt (splitEqSecond arg))
    else if arg = "-p" || arg = "--port" then
      match rest.head? with
      | some nxt => if isAllDigits nxt then some (some (decNat nxt.data)) else getPortLoop rest
      | none => getPortLoop rest
    else getPortLoop rest

/-- `getPort()` (`server.js` lines 14–36).  `args` is `process.argv.slice(2)`;
`envPORT` is `process.env.PORT` (`none` when unset).  The fallback is
`parseInt(process.env.PORT) || 3000`: `NaN` and `0` are falsy and give 3000. -/
def getPort (args : List String) (envPORT : Option String) : Option Int :=
  match getPortLoop args with
  | some r => r
  | none =>
    match (match envPORT with | some s => jsParseInt s | none => none) with
    | none => some 3000
    | some v => if v = 0 then some 3000 else some v

/-- `process.argv.includes('--help') || process.argv.includes('-h')`
(`server.js` line 39); the first two `argv` entries are the interpreter and
script paths, which are never these flags, so scanning the slice suffices. -/
def helpRequested (args : List String) : Bool :=
  args.contains "--help" || args.contains "-h"

/-- The port value the startup sequence resolves: `none` when the help path
exits before `getPort()` is ever called, otherwise `some` of the `getPort`
result (which is itself `none` for a `NaN` port). -/
def resolvedPort (args : List String) (envPORT : Option String) :
    Option (Option Int) :=
  if helpRequested args then none else some (getPort args envPORT)

/-- Outcome of the startup sequence (`server.js` lines 39–67 and 284).
`exitHelp` is `process.exit(0)`; `exitPortError` is `process.exit(1)` from
the range check; `listenThrow` models Node's `server.listen` validating its
port argument and throwing `ERR_SOCKET_BAD_PORT` for a value that is not an
integer in `[0, 65535]` (in particular `NaN`) — uncaught, so the process
exits with a non-zero status before any socket is bound; `listening p` is a
successfully bound socket. -/
inductive StartupResult
  | exitHelp
  | exitPortError
  | listenThrow
  | listening (p : Int)
deriving DecidableEq

/-- JavaScript `<` on a possibly-`NaN` number: any comparison with `NaN`
is false. -/
def jsLtB (o : Option Int) (b : Int) : Bool :=
  match o with
  | none => false
  | some x => decide (x < b)

/-- JavaScript `>` on a possibly-`NaN` number. -/
def jsGtB (o : Option Int) (b : Int) : Bool :=
  match o with
  | none => false
  | some x => decide (x > b)

/-- The startup control flow of `server.js`: help check, `PORT = getPort()`,
the range check `if (PORT < 1 || PORT > 65535) process.exit(1)`, then
`app.listen(PORT, ...)` (modelled with Node's documented port validation). -/
def startup (args : List String) (envPORT : Option String) : StartupResult :=
  if helpRequested args then StartupResult.exitHelp
  else
    let PORT := getPort args envPORT
    if jsLtB PORT 1 || jsGtB PORT 65535 then StartupResult.exitPortError
    else
      match PORT with
      | none => StartupResult.listenThrow
      | some p =>
        if p < 0 || p > 65535 then StartupResult.listenThrow
        else StartupResult.listening p

/-- Whether the resolved port is an integer within 1..65535. -/
def portInRangeB (o : Option Int) : Bool :=
  match o with
  | none => false
  | some p => decide (1 ≤ p ∧ p ≤ 65535)

/-- Startup outcomes in which the process exits with a non-zero status and
never opens a listening socket. -/
def exitsNonZeroNoListen : StartupResult → Bool
  | StartupResult.exitHelp => false
  | StartupResult.exitPortError => true
  | StartupResult.listenThrow => true
  | StartupResult.listening _ => false

/-- One entry of the format registry: file extension and transcoder
argument list. -/
structure FormatSpec where
  ext : String
  codec : List String
deriving DecidableEq

/-- The `FORMATS` object (`server.js` lines 92–99), as a lookup function. -/
def FORMATS (id : String) : Option FormatSpec :=
  if id = "mp4" then some ⟨"mp4", ["-c:v", "libx264", "-c:a", "aac", "-preset", "fast"]⟩
  else if id = "webm" then some ⟨"webm", ["-c:v", "libvpx-vp9", "-c:a", "libopus", "-b:v", "1M"]⟩
  else if id = "mkv" then some ⟨"mkv", ["-c:v", "libx264", "-c:a", "aac", "-preset", "fast"]⟩
  else if id = "mov" then some ⟨"mov", ["-c:v", "libx264", "-c:a", "aac", "-preset", "fast"]⟩
  else if id = "mp3" then some ⟨"mp3", ["-vn", "-c:a", "libmp3lame", "-q:a", "2"]⟩
  else if id = "wav" then some ⟨"wav", ["-vn", "-c:a", "pcm_s16le"]⟩
  else none

/-- The fixed set of supported format identifiers. -/
def supportedFormats : List String :=
  ["mp4", "webm", "mkv", "mov", "mp3", "wav"]

/-- Index of the last `.` at a positive position, if any. -/
def lastDotIdx (l : List Char) : Option Nat :=
  ((List.range l.length).filter (fun i => 0 < i && l.get? i == some '.')).getLast?

/-- `path.parse(base).name`: the base name with a final extension removed.
A dot at position 0 never starts an extension (`.bashrc` keeps its name), and
the Node special case for `..` (a trailing dot immediately after a leading
dot) keeps the whole name. -/
def parseName (s : String) : String :=
  let ds := s.data
  match lastDotIdx ds with
  | none => s
  | some i =>
    if i == ds.length - 1 && i == 1 && ds.head? == some '.' then s
    else String.mk (ds.take i)

/-- ECMAScript `Number.prototype.toFixed(1)`: round to one decimal digit,
ties toward positive infinity, rendered with exactly one fractional digit.
(The sign of a negative zero result is not reproduced; no claim depends
on it.) -/
def toFixed1 (q : ℚ) : String :=
  let n : Int := Int.floor (q * 10 + 1 / 2)
  let a := n.natAbs
  let core := toString (a / 10) ++ "." ++ toString (a % 10)
  if n < 0 then "-" ++ core else core

/-- Smallest power of ten clearing the denominator, for decimal rendering. -/
def ratPow10Den1 (q : ℚ) : Option Nat :=
  (List.range 21).find? (fun k => (q * (10 : ℚ) ^ k).den == 1)

/-- Decimal rendering of a non-negative rational with terminating decimal
expansion (every value produced by `parseFloat` arithmetic terminates). -/
def jsNumToStringCore (q : ℚ) : String :=
  if q.den = 1 then toString q.num.natAbs
  else
    match ratPow10Den1 q with
    | some k =>
      let a := (q * (10 : ℚ) ^ k).num.natAbs
      let s := toString a
      let s := if s.length ≤ k then String.mk (List.replicate (k + 1 - s.length) '0') ++ s else s
      String.mk (s.data.take (s.data.length - k)) ++ "." ++ String.mk (s.data.drop (s.data.length - k))
    | none => toString q.num ++ "/" ++ toString q.den

/-- ECMAScript number-to-string coercion (template literals), on the
terminating-decimal values this model handles; used only in log text. -/
def jsNumToString (q : ℚ) : String :=
  if q < 0 then "-" ++ jsNumToStringCore (-q) else jsNumToStringCore q

/-- `s.slice(-n)`: the final `min n (length s)` characters of `s`. -/
def jsSliceLast (n : Nat) (s : String) : String :=
  String.mk (s.data.drop (s.data.length - n))

/-- The stderr accumulator `let stderr = ''; ... stderr += data.toString()`:
after receiving `chunks`, the retained buffer is their concatenation. -/
def stderrBuffer (chunks : List String) : String :=
  chunks.foldl (fun acc d => acc ++ d) ""

/-- `parseFloat(field) || 0`: `NaN` is falsy and becomes 0; a parsed 0 (or
negative zero) also becomes 0, which in `ℚ` is the identity on `some 0`. -/
def jsOr0 (o : Option ℚ) : ℚ :=
  match o with
  | none => 0
  | some q => q

/-- `req.body.format || 'mp4'`: an absent field (`undefined`) and the empty
string are falsy and give the default. -/
def jsDefaultFormat (o : Option String) : String :=
  match o with
  | none => "mp4"
  | some s => if s = "" then "mp4" else s

/-- `FORMATS[req.body.format]` when the field may be absent: an `undefined`
key finds nothing. -/
def jsFormatLookup (o : Option String) : Option FormatSpec :=
  match o with
  | none => none
  | some s => FORMATS s

/-- `path.join(os.tmpdir(), 'videolab')`, with the platform temp root
modelled as `/tmp`. -/
def TEMP_DIR : String := "/tmp/videolab"

/-- The multer-provided upload: scratch path and original file name. -/
structure UploadedFile where
  path : String
  originalname : String
deriving DecidableEq

/-- Inputs of the `POST /api/convert` handler: the cached availability flag,
the optional upload, and the `format` body field. -/
structure ConvertReq where
  ffmpegAvailable : Bool
  file : Option UploadedFile
  format : Option String
deriving DecidableEq

/-- Inputs of the `POST /api/clip` handler.  `startTime` and `endTime` hold
the `parseFloat` results of the body fields (`none` = `NaN`, covering absent
and non-numeric fields alike). -/
structure ClipReq where
  ffmpegAvailable : Bool
  file : Option UploadedFile
  format : Option String
  startTime : Option ℚ
  endTime : Option ℚ
deriving DecidableEq

/-- One element of a `spawn` argument vector: the source builds the list from
string literals and stringified numbers; numeric slots are kept as their
numeric values. -/
inductive JSArg
  | s (v : String)
  | n (v : ℚ)
deriving DecidableEq

/-- Observable actions of a request handler, in program order:
`fs.unlinkSync`, console logging, `spawn('ffmpeg', args)` (arguments as a
discrete list, no shell), `res.status(...).json({error, details?})`, and
`res.download(path, name)`. -/
inductive Event
  | unlink (path : String)
  | log (msg : String)
  | respondError (status : Nat) (error : String) (details : Option String)
  | spawnProc (cmd : String) (args : List JSArg)
  | download (path : String) (name : String)
deriving DecidableEq

/-- Terminal outcome of the spawned child process: the `error` event (spawn
failure), or the `close` event with an exit code (`none` = killed by signal,
`code === null`), the stderr chunks received, and whether an output file
exists on disk at that point. -/
inductive ProcOutcome
  | spawnFail
  | exited (code : Option Int) (stderrChunks : List String) (outputExists : Bool)
deriving DecidableEq

/-- Environment facts outside the handler's control: the child-process
outcome, whether `res.download` reports an error, and whether response
headers had been sent by the time the download callback runs. -/
structure World where
  proc : ProcOutcome
  downloadErr : Bool
  headersSentAtCb : Bool
deriving DecidableEq

/-- Paths whose deletion the trace attempts (`fs.unlinkSync` calls, wrapped
in try/catch in the source, so an attempt is what the code guarantees). -/
def unlinkedOf (tr : List Event) : List String :=
  tr.filterMap fun e =>
    match e with
    | Event.unlink p => some p
    | _ => none

/-- Argument vectors of the spawn events of a trace. -/
def spawnArgsOf (tr : List Event) : List (List JSArg) :=
  tr.filterMap fun e =>
    match e with
    | Event.spawnProc _ a => some a
    | _ => none

/-- The `details` fields of the error responses of a trace. -/
def errorDetailsOf (tr : List Event) : List (Option String) :=
  tr.filterMap fun e =>
    match e with
    | Event.respondError _ _ d => some d
    | _ => none

/-- `` `videoLab_${originalName}.${FORMATS[targetFormat].ext}` ``. -/
def convertOutputName (f : UploadedFile) (spec : FormatSpec) : String :=
  "videoLab_" ++ parseName f.originalname ++ "." ++ spec.ext

/-- `` path.join(TEMP_DIR, `out_${Date.now()}_${outputName}`) ``. -/
def convertOutputPath (f : UploadedFile) (spec : FormatSpec) (ts : Nat) : String :=
  TEMP_DIR ++ "/out_" ++ toString ts ++ "_" ++ convertOutputName f spec

/-- `` `clip_${originalName}_${startTime.toFixed(1)}s-${endTime.toFixed(1)}s.${ext}` ``. -/
def clipOutputName (f : UploadedFile) (spec : FormatSpec) (st en : ℚ) : String :=
  "clip_" ++ parseName f.originalname ++ "_" ++ toFixed1 st ++ "s-" ++ toFixed1 en ++ "s." ++ spec.ext

/-- `` path.join(TEMP_DIR, `clip_${Date.now()}_${outputName}`) ``. -/
def clipOutputPath (f : UploadedFile) (spec : FormatSpec) (st en : ℚ) (ts : Nat) : String :=
  TEMP_DIR ++ "/clip_" ++ toString ts ++ "_" ++ clipOutputName f spec st en

/-- The `close`/`error`/download callbacks, shared between the two endpoints
(their code is identical up to message strings, lines 156–188 and 238–270):
on spawn failure, log, delete the input, respond 500; on close with a
non-zero (or null) code, delete the input, log the final 500 stderr
characters, delete the output if it exists, respond 500 with the final 300
stderr characters as details; on exit 0, delete the input, stream the
output, delete it in the download callback, and report a download error only
if headers were not yet sent. -/
def procTail (inputPath outputPath outputName failMsg spawnFailMsg : String)
    (w : World) : List Event :=
  match w.proc with
  | ProcOutcome.spawnFail =>
    [Event.log "FFmpeg spawn error", Event.unlink inputPath,
     Event.respondError 500 spawnFailMsg none]
  | ProcOutcome.exited code chunks outEx =>
    Event.unlink inputPath ::
    (if code = some 0 then
      Event.download outputPath outputName ::
      ((if outEx then [Event.unlink outputPath] else []) ++
       (if w.downloadErr && !w.headersSentAtCb then
         [Event.respondError 500 "Download failed" none]
        else []))
    else
      Event.log (jsSliceLast 500 (stderrBuffer chunks)) ::
      ((if outEx then [Event.unlink outputPath] else []) ++
       [Event.respondError 500 failMsg (some (jsSliceLast 300 (stderrBuffer chunks)))]))

/-- `POST /api/convert` (`server.js` lines 123–189) as an event trace. -/
def convertHandler (r : ConvertReq) (ts : Nat) (w : World) : List Event :=
  if r.ffmpegAvailable = false then
    (match r.file with
     | some f => [Event.unlink f.path]
     | none => []) ++
    [Event.respondError 500 "FFmpeg is not installed on the server" none]
  else
    match r.file with
    | none => [Event.respondError 400 "No video file provided" none]
    | some f =>
      match jsFormatLookup r.format with
      | none => [Event.unlink f.path, Event.respondError 400 "Invalid format" none]
      | some spec =>
        let outputName := convertOutputName f spec
        let outputPath := convertOutputPath f spec ts
        let args := [JSArg.s "-i", JSArg.s f.path, JSArg.s "-y"] ++
          spec.codec.map JSArg.s ++ [JSArg.s outputPath]
        Event.log ("Converting: " ++ f.originalname ++ " -> " ++ outputName) ::
        Event.spawnProc "ffmpeg" args ::
        procTail f.path outputPath outputName "Conversion failed" "Failed to start conversion" w

/-- `POST /api/clip` (`server.js` lines 192–271) as an event trace. -/
def clipHandler (r : ClipReq) (ts : Nat) (w : World) : List Event :=
  if r.ffmpegAvailable = false then
    (match r.file with
     | some f => [Event.unlink f.path]
     | none => []) ++
    [Event.respondError 500 "FFmpeg is not installed on the server" none]
  else
    match r.file with
    | none => [Event.respondError 400 "No video file provided" none]
    | some f =>
      let targetFormat := jsDefaultFormat r.format
      let startTime := jsOr0 r.startTime
      match FORMATS targetFormat with
      | none => [Event.unlink f.path, Event.respondError 400 "Invalid format" none]
      | some spec =>
        match r.endTime with
        | none => [Event.unlink f.path, Event.respondError 400 "Invalid time range" none]
        | some endTime =>
          if endTime ≤ startTime then
            [Event.unlink f.path, Event.respondError 400 "Invalid time range" none]
          else
            let duration := endTime - startTime
            let outputName := clipOutputName f spec startTime endTime
            let outputPath := clipOutputPath f spec startTime endTime ts
            let args := [JSArg.s "-ss", JSArg.n startTime, JSArg.s "-i", JSArg.s f.path,
                JSArg.s "-t", JSArg.n duration, JSArg.s "-y"] ++
              spec.codec.map JSArg.s ++
              [JSArg.s "-avoid_negative_ts", JSArg.s "make_zero", JSArg.s outputPath]
            Event.log ("Clipping: " ++ f.originalname ++ " [" ++ jsNumToString startTime ++
              "s - " ++ jsNumToString endTime ++ "s] -> " ++ outputName) ::
            Event.spawnProc "ffmpeg" args ::
            procTail f.path outputPath outputName "Clip creation failed" "Failed to start clip creation" w

/-- Whether the child process left an output file on disk. -/
def producedOutput (w : World) : Bool :=
  match w.proc with
  | ProcOutcome.spawnFail => false
  | ProcOutcome.exited _ _ outEx => outEx

/-- Scratch files created during a `POST /api/convert` request: the upload
written by multer, plus the transcoder output when the request reached the
spawn and the process left an output file. -/
def convertCreated (r : ConvertReq) (ts : Nat) (w : World) : List String :=
  (match r.file with
   | some f => [f.path]
   | none => []) ++
  (if r.ffmpegAvailable && producedOutput w then
    match r.file, jsFormatLookup r.format with
    | some f, some spec => [convertOutputPath f spec ts]
    | _, _ => []
   else [])

/-- Scratch files created during a `POST /api/clip` request. -/
def clipCreated (r : ClipReq) (ts : Nat) (w : World) : List String :=
  (match r.file with
   | some f => [f.path]
   | none => []) ++
  (if r.ffmpegAvailable && producedOutput w then
    match r.file, FORMATS (jsDefaultFormat r.format), r.endTime with
    | some f, some spec, some en =>
      if en ≤ jsOr0 r.startTime then [] else [clipOutputPath f spec (jsOr0 r.startTime) en ts]
    | _, _, _ => []
   else [])

/-- The argument-list structure claimed for the audio-only registry entries:
`-vn`, then an audio codec selection, then a quality flag with its value. -/
def audioArgShape (spec : FormatSpec) : Prop :=
  ∃ ac qf qv, spec.codec = ["-vn", "-c:a", ac, qf, qv]

example : parseName "video.mp4" = "video" := by decide
example : parseName "a.tar.gz" = "a.tar" := by decide
example : parseName ".bashrc" = ".bashrc" := by decide
example : parseName "noext" = "noext" := by decide
unseal Rat.add Rat.sub Rat.mul Rat.inv in
example : toFixed1 2 = "2.0" := by decide
unseal Rat.add Rat.sub Rat.mul Rat.inv in
example : toFixed1 (-5) = "-5.0" := by decide
unseal Rat.add Rat.sub Rat.mul Rat.inv in
example : toFixed1 (1 / 4 : ℚ) = "0.3" := by decide
unseal Rat.add Rat.sub Rat.mul Rat.inv in
example : jsNumToString (5 / 2 : ℚ) = "2.5" := by decide
unseal Rat.add Rat.sub Rat.mul Rat.inv in
example : jsNumToString 3 = "3" := by decide
example : jsSliceLast 3 "abcdef" = "def" := by decide
example : jsSliceLast 10 "abc" = "abc" := by decide
example : jsParseInt "abc" = none := by decide
example : jsParseInt " 0x50" = some 80 := by decide
example : jsParseInt "-5" = some (-5) := by decide
example : jsParseInt "8.5" = some 8 := by decide
example : getPort ["--port=abc"] none = none := by decide
example : getPort ["-p", "80"] none = some 80 := by decide
example : getPort ["-p", "-p", "80"] none = some 80 := by decide
example : getPort [] (some "0") = some 3000 := by decide
example : getPort [] none = some 3000 := by decide
example : startup ["70000"] none = StartupResult.exitPortError := by decide
example : startup ["--port=abc"] none = StartupResult.listenThrow := by decide
example : startup ["--help", "70000"] none = StartupResult.exitHelp := by decide
example : getPort ["8080"] (some "4000") = some 8080 := by decide
example : getPort ["--port=80=90"] none = some 80 := by decide
example : getPort ["-p"] (some "5000") = some 5000 := by decide
example : jsParseInt "+80" = some 80 := by decide
example : startup [] (some "0") = StartupResult.listening 3000 := by decide
example : parseName "file." = "file" := by decide
example : parseName ".." = ".." := by decide
example : splitEqSecond "--port=" = "" := by decide

/-! Helper lemmas -/

theorem formats_isSome_iff (id : String) :
    (FORMATS id).isSome = true ↔ id ∈ supportedFormats := by
  unfold FORMATS supportedFormats
  split_ifs <;> simp_all

theorem formats_eq_none_iff (id : String) :
    FORMATS id = none ↔ id ∉ supportedFormats := by
  rw [← formats_isSome_iff]
  cases FORMATS id <;> simp

theorem jsSliceLast_length_le (n : Nat) (s : String) : (jsSliceLast n s).length ≤ n := by
  show (s.data.drop (s.data.length - n)).length ≤ n
  rw [List.length_drop]
  omega

@[simp] theorem spawnArgsOf_nil : spawnArgsOf [] = [] := rfl

@[simp] theorem spawnArgsOf_cons (e : Event) (tr : List Event) :
    spawnArgsOf (e :: tr) =
      (match e with | Event.spawnProc _ a => [a] | _ => []) ++ spawnArgsOf tr := by
  cases e <;> simp [spawnArgsOf]

@[simp] theorem spawnArgsOf_append (t1 t2 : List Event) :
    spawnArgsOf (t1 ++ t2) = spawnArgsOf t1 ++ spawnArgsOf t2 := by
  simp [spawnArgsOf]

@[simp] theorem spawnArgsOf_procTail (i o n m s : String) (w : World) :
    spawnArgsOf (procTail i o n m s w) = [] := by
  obtain ⟨proc, de, hs⟩ := w
  cases proc with
  | spawnFail => simp [procTail, spawnArgsOf]
  | exited code chunks outEx =>
    by_cases hc : code = some 0 <;> cases outEx <;> cases de <;> cases hs <;>
      simp [procTail, spawnArgsOf, hc]

@[simp] theorem errorDetailsOf_nil : errorDetailsOf [] = [] := rfl

@[simp] theorem errorDetailsOf_cons (e : Event) (tr : List Event) :
    errorDetailsOf (e :: tr) =
      (match e with | Event.respondError _ _ d => [d] | _ => []) ++ errorDetailsOf tr := by
  cases e <;> simp [errorDetailsOf]

@[simp] theorem errorDetailsOf_append (t1 t2 : List Event) :
    errorDetailsOf (t1 ++ t2) = errorDetailsOf t1 ++ errorDetailsOf t2 := by
  simp [errorDetailsOf]

theorem respond400_not_mem_procTail (i o n m s msg : String) (d : Option String) (w : World) :
    Event.respondError 400 msg d ∉ procTail i o n m s w := by
  obtain ⟨proc, de, hs⟩ := w
  cases proc with
  | spawnFail => simp [procTail]
  | exited code chunks outEx =>
    by_cases hc : code = some 0 <;> cases outEx <;> cases de <;> cases hs <;>
      simp [procTail, hc]

/-! Claim theorems -/

/-- C1: for every request to `POST /api/convert` or `POST /api/clip`, every
scratch file created for the request (the upload and, if produced, the
output) has its deletion attempted within the handler's event trace, on
every terminal path — validation rejection, non-zero transcoder exit, spawn
failure, successful streaming, and streaming failure (the trace inputs range
over all of these). -/
theorem cleanup_every_scratch_file (rc : ConvertReq) (rk : ClipReq) (tc tk : Nat)
    (wc wk : World) :
    convertCreated rc tc wc ⊆ unlinkedOf (convertHandler rc tc wc) ∧
    clipCreated rk tk wk ⊆ unlinkedOf (clipHandler rk tk wk) := by
  constructor
  · obtain ⟨avail, file, fmt⟩ := rc
    obtain ⟨proc, de, hs⟩ := wc
    cases avail with
    | false =>
      cases file <;>
        simp [convertHandler, convertCreated, unlinkedOf, List.subset_def]
    | true =>
      cases file with
      | none => simp [convertCreated, List.subset_def]
      | some f =>
        cases hF : jsFormatLookup fmt with
        | none =>
          simp [convertHandler, convertCreated, unlinkedOf, producedOutput, hF,
            List.subset_def]
        | some spec =>
          cases proc with
          | spawnFail =>
            simp [convertHandler, convertCreated, unlinkedOf, producedOutput, procTail,
              hF, List.subset_def]
          | exited code chunks outEx =>
            by_cases hc : code = some 0 <;> cases outEx <;> cases de <;> cases hs <;>
              simp [convertHandler, convertCreated, unlinkedOf, producedOutput, procTail,
                hF, hc, List.subset_def]
  · obtain ⟨avail, file, fmt, st, et⟩ := rk
    obtain ⟨proc, de, hs⟩ := wk
    cases avail with
    | false =>
      cases file <;>
        simp [clipHandler, clipCreated, unlinkedOf, List.subset_def]
    | true =>
      cases file with
      | none => simp [clipCreated, List.subset_def]
      | some f =>
        cases hF : FORMATS (jsDefaultFormat fmt) with
        | none =>
          simp [clipHandler, clipCreated, unlinkedOf, producedOutput, hF, List.subset_def]
        | some spec =>
          cases et with
          | none =>
            simp [clipHandler, clipCreated, unlinkedOf, producedOutput, hF, List.subset_def]
          | some en =>
            by_cases he : en ≤ jsOr0 st
            · simp [clipHandler, clipCreated, unlinkedOf, producedOutput, hF, he,
                List.subset_def]
            · cases proc with
              | spawnFail =>
                simp [clipHandler, clipCreated, unlinkedOf, producedOutput, procTail,
                  hF, he, List.subset_def]
              | exited code chunks outEx =>
                by_cases hc : code = some 0 <;> cases outEx <;> cases de <;> cases hs <;>
                  simp [clipHandler, clipCreated, unlinkedOf, producedOutput, procTail,
                    hF, he, hc, List.subset_def]

/-- C2: with the tool available, a file uploaded and a (defaulted) format
that the registry knows, `POST /api/clip` answers 400
`{error: "Invalid time range"}`, deletes the upload and spawns nothing —
the whole trace is exactly those two actions — precisely when `endTime`
parsed to `NaN` or to a value less than or equal to the defaulted
`startTime` (covering `endTime == startTime` and negative `endTime`). -/
theorem clip_time_range_validation (f : UploadedFile) (fmt : Option String)
    (st et : Option ℚ) (ts : Nat) (w : World)
    (hfmt : (FORMATS (jsDefaultFormat fmt)).isSome = true) :
    clipHandler ⟨true, some f, fmt, st, et⟩ ts w =
      [Event.unlink f.path, Event.respondError 400 "Invalid time range" none] ↔
      et.elim True (fun e => e ≤ jsOr0 st) := by
  obtain ⟨spec, hspec⟩ := Option.isSome_iff_exists.mp hfmt
  cases et with
  | none => simp [clipHandler, hspec]
  | some e =>
    by_cases he : e ≤ jsOr0 st <;> simp [clipHandler, hspec, he]

/-- C2 witness: the boundary case `endTime == startTime` with a missing
`startTime` (defaulted to 0) and the default format is rejected exactly as
the theorem states. -/
theorem clip_time_range_validation_witness :
    clipHandler ⟨true, some ⟨"/tmp/videolab/upload_1_a.mp4", "a.mp4"⟩, none, none, some 0⟩ 5
        ⟨ProcOutcome.exited (some 0) [] true, false, false⟩ =
      [Event.unlink "/tmp/videolab/upload_1_a.mp4",
       Event.respondError 400 "Invalid time range" none] :=
  (clip_time_range_validation ⟨"/tmp/videolab/upload_1_a.mp4", "a.mp4"⟩ none none (some 0) 5
    ⟨ProcOutcome.exited (some 0) [] true, false, false⟩ (by decide)).mpr (le_refl 0)

unseal Rat.add Rat.sub Rat.mul Rat.inv in
/-- C3 counterexample: a clip request with `startTime=-5`, `endTime=-2`
passes validation (`-2 > -5`) and reaches the transcoder invocation with a
negative `-ss` offset and a negative end offset, refuting the claim that
every request reaching the invocation has non-negative offsets. -/
theorem clip_negative_offsets_reach_spawn :
    spawnArgsOf (clipHandler ⟨true, some ⟨"/tmp/videolab/upload_4_d.mp4", "d.mp4"⟩, none,
        some (-5), some (-2)⟩ 11 ⟨ProcOutcome.exited (some 0) [] true, false, false⟩) =
      [[JSArg.s "-ss", JSArg.n (-5), JSArg.s "-i", JSArg.s "/tmp/videolab/upload_4_d.mp4",
        JSArg.s "-t", JSArg.n 3, JSArg.s "-y", JSArg.s "-c:v", JSArg.s "libx264",
        JSArg.s "-c:a", JSArg.s "aac", JSArg.s "-preset", JSArg.s "fast",
        JSArg.s "-avoid_negative_ts", JSArg.s "make_zero",
        JSArg.s "/tmp/videolab/clip_11_clip_d_-5.0s--2.0s.mp4"]] ∧
    (-5 : ℚ) < 0 ∧ (-2 : ℚ) < 0 := by
  decide

/-- C3 (amended): every clip request that reaches the transcoder invocation
has an end offset strictly greater than its (defaulted) start offset; the
validation enforces nothing more, and in particular does not reject negative
offsets. -/
theorem clip_spawn_end_gt_start (r : ClipReq) (ts : Nat) (w : World)
    (h : spawnArgsOf (clipHandler r ts w) ≠ []) :
    ∃ e, r.endTime = some e ∧ jsOr0 r.startTime < e := by
  obtain ⟨avail, file, fmt, st, et⟩ := r
  cases avail with
  | false =>
    exfalso
    apply h
    cases file <;> simp [clipHandler]
  | true =>
    cases file with
    | none => exact absurd rfl h
    | some f =>
      cases hF : FORMATS (jsDefaultFormat fmt) with
      | none =>
        exfalso
        apply h
        simp [clipHandler, hF]
      | some spec =>
        cases et with
        | none =>
          exfalso
          apply h
          simp [clipHandler, hF]
        | some e =>
          by_cases he : e ≤ jsOr0 st
          · exfalso
            apply h
            simp [clipHandler, hF, he]
          · exact ⟨e, rfl, not_le.mp he⟩

unseal Rat.add Rat.sub Rat.mul Rat.inv in
/-- C3 amended-claim witness: a clip with `startTime` missing and
`endTime=1` reaches the spawn, and the theorem yields `0 < 1`. -/
theorem clip_spawn_end_gt_start_witness :
    ∃ e, (ClipReq.mk true (some ⟨"/tmp/videolab/upload_6_f.mp4", "f.mp4"⟩) none none
        (some 1)).endTime = some e ∧
      jsOr0 (ClipReq.mk true (some ⟨"/tmp/videolab/upload_6_f.mp4", "f.mp4"⟩) none none
        (some 1)).startTime < e :=
  clip_spawn_end_gt_start
    ⟨true, some ⟨"/tmp/videolab/upload_6_f.mp4", "f.mp4"⟩, none, none, some 1⟩ 2
    ⟨ProcOutcome.exited (some 0) [] true, false, false⟩ (by decide)

/-- C4: `POST /api/convert` validates tool availability first (an
unavailable tool wins over any file/format state, deleting the upload when
present), then file presence (no upload gives the 400 "No video file
provided" with nothing else in the trace), then format validity (an unknown
format deletes the upload and answers 400 "Invalid format"); each of these
traces contains no spawn event, and the tool-unavailable response is
status 500 `{error: "FFmpeg is not installed on the server"}`. -/
theorem convert_validation_order (ofile : Option UploadedFile) (f : UploadedFile)
    (fmt : Option String) (t1 t2 t3 : Nat) (w1 w2 w3 : World) :
    convertHandler ⟨false, ofile, fmt⟩ t1 w1 =
        (match ofile with | some g => [Event.unlink g.path] | none => []) ++
        [Event.respondError 500 "FFmpeg is not installed on the server" none] ∧
    convertHandler ⟨true, none, fmt⟩ t2 w2 =
        [Event.respondError 400 "No video file provided" none] ∧
    (jsFormatLookup fmt = none →
      convertHandler ⟨true, some f, fmt⟩ t3 w3 =
        [Event.unlink f.path, Event.respondError 400 "Invalid format" none]) := by
  refine ⟨?_, ?_, ?_⟩
  · simp [convertHandler]
  · simp [convertHandler]
  · intro h
    simp [convertHandler, h]

/-- C4 witness: the three validation rejections at concrete inputs
(tool unavailable with an upload; no upload; unsupported format `flac`). -/
theorem convert_validation_order_witness :
    convertHandler ⟨false, some ⟨"/tmp/videolab/upload_2_b.avi", "b.avi"⟩, some "mp4"⟩ 0
        ⟨ProcOutcome.spawnFail, false, false⟩ =
      [Event.unlink "/tmp/videolab/upload_2_b.avi",
       Event.respondError 500 "FFmpeg is not installed on the server" none] ∧
    convertHandler ⟨true, none, some "mp4"⟩ 0 ⟨ProcOutcome.spawnFail, false, false⟩ =
      [Event.respondError 400 "No video file provided" none] ∧
    convertHandler ⟨true, some ⟨"/tmp/videolab/upload_2_b.avi", "b.avi"⟩, some "flac"⟩ 0
        ⟨ProcOutcome.spawnFail, false, false⟩ =
      [Event.unlink "/tmp/videolab/upload_2_b.avi",
       Event.respondError 400 "Invalid format" none] := by
  have h := convert_validation_order (some ⟨"/tmp/videolab/upload_2_b.avi", "b.avi"⟩)
    ⟨"/tmp/videolab/upload_2_b.avi", "b.avi"⟩ (some "flac") 0 0 0
    ⟨ProcOutcome.spawnFail, false, false⟩ ⟨ProcOutcome.spawnFail, false, false⟩
    ⟨ProcOutcome.spawnFail, false, false⟩
  have h4 := convert_validation_order (some ⟨"/tmp/videolab/upload_2_b.avi", "b.avi"⟩)
    ⟨"/tmp/videolab/upload_2_b.avi", "b.avi"⟩ (some "mp4") 0 0 0
    ⟨ProcOutcome.spawnFail, false, false⟩ ⟨ProcOutcome.spawnFail, false, false⟩
    ⟨ProcOutcome.spawnFail, false, false⟩
  exact ⟨h4.1, h4.2.1, h.2.2 (by decide)⟩

/-- C5: every request passing validation spawns the transcoder exactly once,
with the arguments as a discrete list (the `Event.spawnProc` payload, never
a shell string): `[-i input, -y, codec…, output]` for conversion and
`[-ss start, -i input, -t (end - start), -y, codec…, -avoid_negative_ts,
make_zero, output]` for clipping, the `-t` value being `endTime` minus the
defaulted `startTime`. -/
theorem spawn_argument_lists (f g : UploadedFile) (cf : String) (kf : Option String)
    (sp sq : FormatSpec) (st : Option ℚ) (e : ℚ) (t1 t2 : Nat) (w1 w2 : World) :
    (FORMATS cf = some sp →
      spawnArgsOf (convertHandler ⟨true, some f, some cf⟩ t1 w1) =
        [[JSArg.s "-i", JSArg.s f.path, JSArg.s "-y"] ++ sp.codec.map JSArg.s ++
          [JSArg.s (convertOutputPath f sp t1)]]) ∧
    (FORMATS (jsDefaultFormat kf) = some sq → ¬ e ≤ jsOr0 st →
      spawnArgsOf (clipHandler ⟨true, some g, kf, st, some e⟩ t2 w2) =
        [[JSArg.s "-ss", JSArg.n (jsOr0 st), JSArg.s "-i", JSArg.s g.path, JSArg.s "-t",
          JSArg.n (e - jsOr0 st), JSArg.s "-y"] ++ sq.codec.map JSArg.s ++
          [JSArg.s "-avoid_negative_ts", JSArg.s "make_zero",
           JSArg.s (clipOutputPath g sq (jsOr0 st) e t2)]]) := by
  constructor
  · intro h
    simp [convertHandler, jsFormatLookup, h]
  · intro h he
    simp [clipHandler, h, he]

/-- C5 witness: concrete conversion (`mp4`) and clip (`startTime=1`,
`endTime=3`, default format) requests, with the resulting argument vectors. -/
theorem spawn_argument_lists_witness :
    spawnArgsOf (convertHandler ⟨true, some ⟨"/tmp/videolab/upload_3_c.avi", "c.avi"⟩,
        some "mp4"⟩ 9 ⟨ProcOutcome.spawnFail, false, false⟩) =
      [[JSArg.s "-i", JSArg.s "/tmp/videolab/upload_3_c.avi", JSArg.s "-y"] ++
        (FormatSpec.mk "mp4" ["-c:v", "libx264", "-c:a", "aac", "-preset", "fast"]).codec.map
          JSArg.s ++
        [JSArg.s (convertOutputPath ⟨"/tmp/videolab/upload_3_c.avi", "c.avi"⟩
          ⟨"mp4", ["-c:v", "libx264", "-c:a", "aac", "-preset", "fast"]⟩ 9)]] ∧
    spawnArgsOf (clipHandler ⟨true, some ⟨"/tmp/videolab/upload_3_c.avi", "c.avi"⟩, none,
        some 1, some 3⟩ 9 ⟨ProcOutcome.spawnFail, false, false⟩) =
      [[JSArg.s "-ss", JSArg.n (jsOr0 (some 1)), JSArg.s "-i",
        JSArg.s "/tmp/videolab/upload_3_c.avi", JSArg.s "-t",
        JSArg.n ((3 : ℚ) - jsOr0 (some 1)), JSArg.s "-y"] ++
        (FormatSpec.mk "mp4" ["-c:v", "libx264", "-c:a", "aac", "-preset", "fast"]).codec.map
          JSArg.s ++
        [JSArg.s "-avoid_negative_ts", JSArg.s "make_zero",
         JSArg.s (clipOutputPath ⟨"/tmp/videolab/upload_3_c.avi", "c.avi"⟩
           ⟨"mp4", ["-c:v", "libx264", "-c:a", "aac", "-preset", "fast"]⟩
           (jsOr0 (some 1)) 3 9)]] := by
  have h := spawn_argument_lists ⟨"/tmp/videolab/upload_3_c.avi", "c.avi"⟩
    ⟨"/tmp/videolab/upload_3_c.avi", "c.avi"⟩ "mp4" none
    ⟨"mp4", ["-c:v", "libx264", "-c:a", "aac", "-preset", "fast"]⟩
    ⟨"mp4", ["-c:v", "libx264", "-c:a", "aac", "-preset", "fast"]⟩
    (some 1) 3 9 9 ⟨ProcOutcome.spawnFail, false, false⟩ ⟨ProcOutcome.spawnFail, false, false⟩
  exact ⟨h.1 (by decide), h.2 (by decide) (by decide)⟩

unseal Rat.add Rat.sub Rat.mul Rat.inv in
/-- C6 counterexample: the empty string is an identifier outside the
supported six and format lookup fails on it, yet `POST /api/clip` does not
reject a request carrying it — `req.body.format || 'mp4'` replaces the
falsy empty string with the default, and the request reaches the spawn
(one spawn event in the trace). -/
theorem clip_accepts_empty_format_identifier :
    FORMATS "" = none ∧
    (spawnArgsOf (clipHandler ⟨true, some ⟨"/tmp/videolab/upload_5_e.mp4", "e.mp4"⟩,
        some "", some 0, some 1⟩ 13 ⟨ProcOutcome.exited (some 0) [] true, false, false⟩)).length
      = 1 := by
  decide

/-- C6 (amended): format lookup succeeds exactly for mp4, webm, mkv, mov,
mp3 and wav, each entry carrying a nonempty extension and a nonempty
argument list; for any other identifier lookup reports not-found, and
`POST /api/convert` rejects it with 400 "Invalid format" (upload deleted,
nothing spawned), as does `POST /api/clip` for any such identifier other
than the empty string, which the clip endpoint silently replaces with the
default `mp4` before lookup. -/
theorem format_lookup_fails_closed (id : String) (f g : UploadedFile) (st et : Option ℚ)
    (t1 t2 : Nat) (w1 w2 : World) :
    ((FORMATS id).isSome = true ↔ id ∈ supportedFormats) ∧
    (∀ spec, FORMATS id = some spec → spec.ext ≠ "" ∧ spec.codec ≠ []) ∧
    (id ∉ supportedFormats →
      convertHandler ⟨true, some f, some id⟩ t1 w1 =
        [Event.unlink f.path, Event.respondError 400 "Invalid format" none]) ∧
    (id ∉ supportedFormats → id ≠ "" →
      clipHandler ⟨true, some g, some id, st, et⟩ t2 w2 =
        [Event.unlink g.path, Event.respondError 400 "Invalid format" none]) := by
  refine ⟨formats_isSome_iff id, ?_, ?_, ?_⟩
  · intro spec h
    unfold FORMATS at h
    split_ifs at h <;> simp_all <;> simp [← h]
  · intro h
    simp [convertHandler, jsFormatLookup, (formats_eq_none_iff id).mpr h]
  · intro h hne
    have hd : jsDefaultFormat (some id) = id := by simp [jsDefaultFormat, hne]
    simp [clipHandler, hd, (formats_eq_none_iff id).mpr h]

/-- C6 amended-claim witness: instantiation at the supported identifier
`mp4` (lookup succeeds, entry well-formed) and at the unknown identifier
`flac` (both endpoints reject). -/
theorem format_lookup_fails_closed_witness :
    ((FORMATS "mp4").isSome = true ↔ "mp4" ∈ supportedFormats) ∧
    ((FormatSpec.mk "mp4" ["-c:v", "libx264", "-c:a", "aac", "-preset", "fast"]).ext ≠ "" ∧
     (FormatSpec.mk "mp4" ["-c:v", "libx264", "-c:a", "aac", "-preset", "fast"]).codec ≠ []) ∧
    convertHandler ⟨true, some ⟨"/tmp/videolab/upload_7_g.mp4", "g.mp4"⟩, some "flac"⟩ 0
        ⟨ProcOutcome.spawnFail, false, false⟩ =
      [Event.unlink "/tmp/videolab/upload_7_g.mp4",
       Event.respondError 400 "Invalid format" none] ∧
    clipHandler ⟨true, some ⟨"/tmp/videolab/upload_7_g.mp4", "g.mp4"⟩, some "flac",
        some 0, some 1⟩ 0 ⟨ProcOutcome.spawnFail, false, false⟩ =
      [Event.unlink "/tmp/videolab/upload_7_g.mp4",
       Event.respondError 400 "Invalid format" none] := by
  have hmp4 := format_lookup_fails_closed "mp4" ⟨"/tmp/videolab/upload_7_g.mp4", "g.mp4"⟩
    ⟨"/tmp/videolab/upload_7_g.mp4", "g.mp4"⟩ (some 0) (some 1) 0 0
    ⟨ProcOutcome.spawnFail, false, false⟩ ⟨ProcOutcome.spawnFail, false, false⟩
  have hflac := format_lookup_fails_closed "flac" ⟨"/tmp/videolab/upload_7_g.mp4", "g.mp4"⟩
    ⟨"/tmp/videolab/upload_7_g.mp4", "g.mp4"⟩ (some 0) (some 1) 0 0
    ⟨ProcOutcome.spawnFail, false, false⟩ ⟨ProcOutcome.spawnFail, false, false⟩
  exact ⟨hmp4.1, hmp4.2.1 ⟨"mp4", ["-c:v", "libx264", "-c:a", "aac", "-preset", "fast"]⟩
    (by decide), hflac.2.2.1 (by decide), hflac.2.2.2 (by decide) (by decide)⟩

/-- C7 counterexample: the `wav` registry entry is `-vn` plus an audio codec
selection only — its argument list `["-vn", "-c:a", "pcm_s16le"]` has no
quality setting, so the claimed shape (codec selection followed by a quality
flag and value) does not hold for it. -/
theorem wav_lacks_quality_setting :
    ∃ spec, FORMATS "wav" = some spec ∧ ¬ audioArgShape spec := by
  refine ⟨⟨"wav", ["-vn", "-c:a", "pcm_s16le"]⟩, by decide, ?_⟩
  rintro ⟨ac, qf, qv, h⟩
  simp at h

/-- C7 (amended): of the two audio-only formats, `mp3` carries `-vn`, the
audio codec selection `-c:a libmp3lame` and the quality setting `-q:a 2`,
while `wav` carries `-vn` and the audio codec selection `-c:a pcm_s16le`
with no quality setting (PCM is unparameterised). -/
theorem audio_format_arguments :
    (∃ spec, FORMATS "mp3" = some spec ∧
      spec.codec = ["-vn", "-c:a", "libmp3lame", "-q:a", "2"] ∧ audioArgShape spec) ∧
    (∃ spec, FORMATS "wav" = some spec ∧ spec.codec = ["-vn", "-c:a", "pcm_s16le"]) := by
  constructor
  · exact ⟨⟨"mp3", ["-vn", "-c:a", "libmp3lame", "-q:a", "2"]⟩, rfl, rfl,
      ⟨"libmp3lame", "-q:a", "2", rfl⟩⟩
  · exact ⟨⟨"wav", ["-vn", "-c:a", "pcm_s16le"]⟩, rfl, rfl⟩

theorem string_length_mk (l : List Char) : (String.mk l).length = l.length := rfl

theorem string_empty_append (s : String) : "" ++ s = s := by
  cases s
  rfl

theorem stderrBuffer_single (c : String) : stderrBuffer [c] = "" ++ c := rfl

/-- C8 counterexample: the stderr accumulator keeps the whole stream — after
the capture step that receives a single 100000-character chunk, the retained
buffer holds all 100000 characters, far beyond the final ~500 the claim
allows. -/
theorem stderr_buffer_unbounded :
    (stderrBuffer [String.mk (List.replicate 100000 'e')]).length = 100000 ∧
    500 < (stderrBuffer [String.mk (List.replicate 100000 'e')]).length := by
  rw [stderrBuffer_single, string_empty_append, string_length_mk, List.length_replicate]
  omega

/-- C8 (amended): the handlers accumulate the entire stderr stream in memory
(no truncation during capture); bounding happens only at use — on a failed
exit the error response's `details` field carries exactly the final 300
characters of the accumulated stream, and the console log carries the final
500, both bounds holding for every chunk sequence. -/
theorem stderr_excerpts_bounded (chunks : List String) (f g : UploadedFile)
    (cf : String) (kf : Option String) (sp sq : FormatSpec) (st : Option ℚ) (e : ℚ)
    (code : Option Int) (outEx de hs : Bool) (t1 t2 : Nat)
    (hcf : FORMATS cf = some sp) (hkf : FORMATS (jsDefaultFormat kf) = some sq)
    (he : ¬ e ≤ jsOr0 st) (hcode : code ≠ some 0) :
    errorDetailsOf (convertHandler ⟨true, some f, some cf⟩ t1
        ⟨ProcOutcome.exited code chunks outEx, de, hs⟩) =
      [some (jsSliceLast 300 (stderrBuffer chunks))] ∧
    errorDetailsOf (clipHandler ⟨true, some g, kf, st, some e⟩ t2
        ⟨ProcOutcome.exited code chunks outEx, de, hs⟩) =
      [some (jsSliceLast 300 (stderrBuffer chunks))] ∧
    (jsSliceLast 300 (stderrBuffer chunks)).length ≤ 300 ∧
    (jsSliceLast 500 (stderrBuffer chunks)).length ≤ 500 := by
  refine ⟨?_, ?_, jsSliceLast_length_le 300 _, jsSliceLast_length_le 500 _⟩
  · cases outEx <;> simp [convertHandler, jsFormatLookup, hcf, procTail, hcode]
  · cases outEx <;> simp [clipHandler, hkf, he, procTail, hcode]

/-- C8 amended-claim witness: a failed conversion whose single stderr chunk
is one character long surfaces that chunk as the bounded details excerpt. -/
theorem stderr_excerpts_bounded_witness :
    errorDetailsOf (convertHandler ⟨true, some ⟨"/tmp/videolab/upload_8_h.avi", "h.avi"⟩,
        some "wav"⟩ 3 ⟨ProcOutcome.exited (some 1) ["x"] false, false, false⟩) =
      [some (jsSliceLast 300 (stderrBuffer ["x"]))] ∧
    errorDetailsOf (clipHandler ⟨true, some ⟨"/tmp/videolab/upload_8_h.avi", "h.avi"⟩,
        none, none, some 2⟩ 3 ⟨ProcOutcome.exited (some 1) ["x"] false, false, false⟩) =
      [some (jsSliceLast 300 (stderrBuffer ["x"]))] ∧
    (jsSliceLast 300 (stderrBuffer ["x"])).length ≤ 300 ∧
    (jsSliceLast 500 (stderrBuffer ["x"])).length ≤ 500 :=
  stderr_excerpts_bounded ["x"] ⟨"/tmp/videolab/upload_8_h.avi", "h.avi"⟩
    ⟨"/tmp/videolab/upload_8_h.avi", "h.avi"⟩ "wav" none
    ⟨"wav", ["-vn", "-c:a", "pcm_s16le"]⟩
    ⟨"mp4", ["-c:v", "libx264", "-c:a", "aac", "-preset", "fast"]⟩ none 2
    (some 1) false false false 3 3 (by decide) (by decide) (by decide) (by decide)

/-- C9: for every startup configuration (argument list and PORT environment
variable) that resolves a port at all (the help flags exit first, with
status 0, before any port is resolved), if the resolved value is not an
integer within 1..65535 then the process ends with a non-zero status and no
listening socket: an out-of-range number trips the explicit range check
(`process.exit(1)`), and a `NaN` from a malformed `--port=` value slips past
the range check but makes the `listen` call throw `ERR_SOCKET_BAD_PORT`
before a socket is bound. -/
theorem bad_port_exits_without_listening (args : List String) (envPORT : Option String)
    (op : Option Int) (hres : resolvedPort args envPORT = some op)
    (hout : portInRangeB op = false) :
    exitsNonZeroNoListen (startup args envPORT) = true := by
  unfold resolvedPort at hres
  by_cases hh : helpRequested args
  · simp [hh] at hres
  · simp [hh] at hres
    unfold startup
    rw [hres]
    simp only [hh, Bool.false_eq_true, if_false]
    cases op with
    | none => simp [jsLtB, jsGtB, exitsNonZeroNoListen]
    | some p =>
      unfold portInRangeB at hout
      simp only [decide_eq_false_iff_not, not_and, not_le] at hout
      by_cases h1 : p < 1
      · simp [jsLtB, h1, exitsNonZeroNoListen]
      · have h2 : p > 65535 := by
          rcases lt_or_ge p 1 with h | h
          · exact absurd h h1
          · exact hout (by omega)
        simp [jsLtB, jsGtB, h1, h2, exitsNonZeroNoListen]

/-- C9 witness: `--port=abc` resolves to `NaN` (not an integer in range) and
startup ends in the throwing `listen` call - a non-zero exit with no
socket. -/
theorem bad_port_exits_without_listening_witness :
    portInRangeB (getPort ["--port=abc"] none) = false ∧
    exitsNonZeroNoListen (startup ["--port=abc"] none) = true :=
  ⟨by decide, bad_port_exits_without_listening ["--port=abc"] none none (by decide) (by decide)⟩

/-- C10: in `POST /api/clip`, a `startTime` whose `parseFloat` is `NaN`
(field missing or non-numeric) or 0 is coerced to 0; whenever `endTime`
parses to a value strictly greater than 0 (and the defaulted format is
known), the request proceeds as a clip from offset 0 — the spawn happens
with `-ss 0` and `-t endTime`, and no "Invalid time range" response occurs
anywhere in the trace. -/
theorem clip_startTime_coerced_to_zero (f : UploadedFile) (kf : Option String)
    (sq : FormatSpec) (st : Option ℚ) (e : ℚ) (ts : Nat) (w : World)
    (hst : st = none ∨ st = some 0)
    (hkf : FORMATS (jsDefaultFormat kf) = some sq) (he : 0 < e) :
    jsOr0 st = 0 ∧
    spawnArgsOf (clipHandler ⟨true, some f, kf, st, some e⟩ ts w) =
      [[JSArg.s "-ss", JSArg.n 0, JSArg.s "-i", JSArg.s f.path, JSArg.s "-t", JSArg.n e,
        JSArg.s "-y"] ++ sq.codec.map JSArg.s ++
        [JSArg.s "-avoid_negative_ts", JSArg.s "make_zero",
         JSArg.s (clipOutputPath f sq 0 e ts)]] ∧
    Event.respondError 400 "Invalid time range" none ∉
      clipHandler ⟨true, some f, kf, st, some e⟩ ts w := by
  have h0 : jsOr0 st = 0 := by
    rcases hst with h | h <;> simp [jsOr0, h]
  have hne0 : ¬ e ≤ (0 : ℚ) := not_le.mpr he
  refine ⟨h0, ?_, ?_⟩
  · simp [clipHandler, hkf, h0, hne0]
  · simp [clipHandler, hkf, h0, hne0, respond400_not_mem_procTail]

/-- C10 witness: `startTime` missing, `endTime=2`, default format: the
request is treated as a clip from offset 0. -/
theorem clip_startTime_coerced_to_zero_witness :
    jsOr0 none = 0 ∧
    spawnArgsOf (clipHandler ⟨true, some ⟨"/tmp/videolab/upload_9_i.mp4", "i.mp4"⟩, none,
        none, some 2⟩ 21 ⟨ProcOutcome.spawnFail, false, false⟩) =
      [[JSArg.s "-ss", JSArg.n 0, JSArg.s "-i", JSArg.s "/tmp/videolab/upload_9_i.mp4",
        JSArg.s "-t", JSArg.n 2, JSArg.s "-y"] ++
        (FormatSpec.mk "mp4" ["-c:v", "libx264", "-c:a", "aac", "-preset", "fast"]).codec.map
          JSArg.s ++
        [JSArg.s "-avoid_negative_ts", JSArg.s "make_zero",
         JSArg.s (clipOutputPath ⟨"/tmp/videolab/upload_9_i.mp4", "i.mp4"⟩
           ⟨"mp4", ["-c:v", "libx264", "-c:a", "aac", "-preset", "fast"]⟩ 0 2 21)]] ∧
    Event.respondError 400 "Invalid time range" none ∉
      clipHandler ⟨true, some ⟨"/tmp/videolab/upload_9_i.mp4", "i.mp4"⟩, none, none, some 2⟩
        21 ⟨ProcOutcome.spawnFail, false, false⟩ :=
  clip_startTime_coerced_to_zero ⟨"/tmp/videolab/upload_9_i.mp4", "i.mp4"⟩ none
    ⟨"mp4", ["-c:v", "libx264", "-c:a", "aac", "-preset", "fast"]⟩ none 2 21
    ⟨ProcOutcome.spawnFail, false, false⟩ (Or.inl rfl) (by decide) (by decide)

/-- C1 witness: the cleanup inclusion at a concrete failed conversion and a
concrete successful clip. -/
theorem cleanup_every_scratch_file_witness :
    convertCreated ⟨true, some ⟨"/tmp/videolab/upload_10_j.avi", "j.avi"⟩, some "mp4"⟩ 7
        ⟨ProcOutcome.exited (some 1) ["e"] true, false, false⟩ ⊆
      unlinkedOf (convertHandler ⟨true, some ⟨"/tmp/videolab/upload_10_j.avi", "j.avi"⟩,
        some "mp4"⟩ 7 ⟨ProcOutcome.exited (some 1) ["e"] true, false, false⟩) ∧
    clipCreated ⟨true, some ⟨"/tmp/videolab/upload_10_j.avi", "j.avi"⟩, none, some 1, some 4⟩
        7 ⟨ProcOutcome.exited (some 0) [] true, false, false⟩ ⊆
      unlinkedOf (clipHandler ⟨true, some ⟨"/tmp/videolab/upload_10_j.avi", "j.avi"⟩, none,
        some 1, some 4⟩ 7 ⟨ProcOutcome.exited (some 0) [] true, false, false⟩) :=
  cleanup_every_scratch_file
    ⟨true, some ⟨"/tmp/videolab/upload_10_j.avi", "j.avi"⟩, some "mp4"⟩
    ⟨true, some ⟨"/tmp/videolab/upload_10_j.avi", "j.avi"⟩, none, some 1, some 4⟩ 7 7
    ⟨ProcOutcome.exited (some 1) ["e"] true, false, false⟩
    ⟨ProcOutcome.exited (some 0) [] true, false, false⟩

end VideoLab
